import Mathlib

/-!
Verification of the `Traces` RPC namespace (`src/api/traces.rs`):
a typed facade over an abstract transport, where each operation encodes
its domain arguments into an ordered JSON-RPC parameter list and
dispatches a fixed remote method name.

The file embeds the wire value model, the serializers for the domain
types, the nine operation encoders, and the generic call-wrapper
resolution, then proves the specified properties about them.
-/

/-- A JSON wire value as produced by parameter serialization:
strings, arrays and objects (a list of key/value pairs in order). -/
inductive Json where
  | str : String → Json
  | arr : List Json → Json
  | obj : List (String × Json) → Json
deriving Repr

/-- Lowercase hexadecimal digits of a natural number (minimal form,
"0" for zero). -/
def hexDigits (n : Nat) : List Char :=
  Nat.toDigits 16 n

/-- Minimal "0x"-prefixed lowercase hex encoding, e.g. 0 ↦ "0x0",
1 ↦ "0x1". -/
def hexMinimal (n : Nat) : String :=
  "0x" ++ String.mk (hexDigits n)

/-- Fixed-width "0x"-prefixed lowercase hex encoding, left-padded with
zeros to `w` digits. -/
def hexPadded (w : Nat) (n : Nat) : String :=
  let ds := hexDigits n
  "0x" ++ String.mk (List.replicate (w - ds.length) '0' ++ ds)

/-- A 256-bit hash identifier, modelled by its numeric value.
Modelled from the spec: raw hash parameters are serialized using the
canonical hex encoding with no additional wrapping (spec section 4.1). -/
abbrev H256 := Nat

/-- Modelled from the spec: canonical hex encoding of a 256-bit hash,
"0x" followed by 64 lowercase hex digits. -/
def serializeH256 (h : H256) : Json :=
  Json.str (hexPadded 64 h)

/-- A 160-bit account address, modelled by its numeric value. -/
abbrev Address := Nat

/-- Modelled from the spec: canonical hex encoding of an address,
"0x" followed by 40 lowercase hex digits. -/
def serializeAddress (a : Address) : Json :=
  Json.str (hexPadded 40 a)

/-- A raw byte string. -/
abbrev Bytes := List Nat

/-- Modelled from the spec: raw byte parameters serialize to the
canonical hex string, two lowercase hex digits per byte, with no
additional wrapping (spec section 4.1). -/
def serializeBytes (b : Bytes) : Json :=
  Json.str ("0x" ++ String.join (b.map (fun x => String.mk
    (List.replicate (2 - (hexDigits x).length) '0' ++ hexDigits x))))

/-- A 256-bit quantity (transaction value, gas, gas price). -/
abbrev U256 := Nat

/-- Modelled from the spec: quantities serialize to minimal hex,
e.g. 1 ↦ "0x1". -/
def serializeU256 (v : U256) : Json :=
  Json.str (hexMinimal v)

/-- A zero-based trace index within a transaction. -/
abbrev Index := Nat

/-- Modelled from the spec: index values serialize to minimal hex,
e.g. 0 ↦ "0x0" (spec section 8). -/
def serializeIndex (i : Index) : Json :=
  Json.str (hexMinimal i)

/-- A block selector: a reference to a block by number or by symbolic
tag (tip/latest, earliest, pending). -/
inductive BlockNumber where
  | Latest : BlockNumber
  | Earliest : BlockNumber
  | Pending : BlockNumber
  | Number : Nat → BlockNumber

/-- Modelled from the spec: the bare block-number wire form — symbolic
tags encode to their token ("latest" for the tip), numbers to minimal
hex (spec sections 4.1 and 8). -/
def serializeBlockNumber : BlockNumber → Json
  | BlockNumber.Latest => Json.str "latest"
  | BlockNumber.Earliest => Json.str "earliest"
  | BlockNumber.Pending => Json.str "pending"
  | BlockNumber.Number n => Json.str (hexMinimal n)

/-- A block identifier: a block referenced either by hash or by
block selector. -/
inductive BlockId where
  | Hash : H256 → BlockId
  | Number : BlockNumber → BlockId

/-- The conversion `BlockNumber → BlockId` used by the `call_many`
default (`BlockNumber::Latest.into()`). -/
def BlockId.ofBlockNumber (b : BlockNumber) : BlockId :=
  BlockId.Number b

/-- Modelled from the spec: the block-identifier wire form, a
structured (EIP-1898-style) object, distinct from the bare
block-number token; both tip defaults denote "latest" but use
different wire encodings (spec sections 4.1, 8 and 9). -/
def serializeBlockId : BlockId → Json
  | BlockId.Hash h => Json.obj [("blockHash", serializeH256 h)]
  | BlockId.Number b => Json.obj [("blockNumber", serializeBlockNumber b)]

/-- An enumerated trace-type flag. -/
inductive TraceType where
  | Trace : TraceType
  | VmTrace : TraceType
  | StateDiff : TraceType

/-- Modelled from the spec: each trace-type flag encodes to its
enumerated token string. -/
def serializeTraceType : TraceType → Json
  | TraceType.Trace => Json.str "trace"
  | TraceType.VmTrace => Json.str "vmTrace"
  | TraceType.StateDiff => Json.str "stateDiff"

/-- Modelled from the spec: a list of trace-type flags is always
serialized as an explicit list parameter, even when singleton
(spec section 4.1). -/
def serializeTraceTypes (ts : List TraceType) : Json :=
  Json.arr (ts.map serializeTraceType)

/-- A call specification: the typed request of `trace_call`, with every
field optional (mirrors `CallRequest` in `types`). -/
structure CallRequest where
  from? : Option Address := none
  to? : Option Address := none
  gas : Option U256 := none
  gas_price : Option U256 := none
  value : Option U256 := none
  data : Option Bytes := none
  transaction_type : Option U256 := none
  access_list : Option (List (Address × List H256)) := none
  max_fee_per_gas : Option U256 := none
  max_priority_fee_per_gas : Option U256 := none

/-- One optional field of a structured parameter: present fields keep
their key/value pair, unset fields are omitted. -/
def optField (key : String) (v : Option Json) : List (String × Json) :=
  match v with
  | none => []
  | some j => [(key, j)]

/-- Modelled from the spec: a call specification is serialized as a
single structured parameter; unset fields are omitted from that
structure, not defaulted (spec section 4.1). Field order follows the
declaration order of the request type. -/
def serializeCallRequest (r : CallRequest) : Json :=
  Json.obj
    (optField "from" (r.from?.map serializeAddress) ++
     optField "to" (r.to?.map serializeAddress) ++
     optField "gas" (r.gas.map serializeU256) ++
     optField "gasPrice" (r.gas_price.map serializeU256) ++
     optField "value" (r.value.map serializeU256) ++
     optField "data" (r.data.map serializeBytes) ++
     optField "type" (r.transaction_type.map serializeU256) ++
     optField "accessList" (r.access_list.map (fun al =>
       Json.arr (al.map (fun p =>
         Json.obj [("address", serializeAddress p.1),
                   ("storageKeys", Json.arr (p.2.map serializeH256))])))) ++
     optField "maxFeePerGas" (r.max_fee_per_gas.map serializeU256) ++
     optField "maxPriorityFeePerGas"
       (r.max_priority_fee_per_gas.map serializeU256))

/-- Modelled from the spec: the batched "call many" argument — a list
of (call spec, trace-type list) pairs — serializes each pair as a
two-element array (spec section 4.1). -/
def serializeReqsWithTraceTypes
    (rs : List (CallRequest × List TraceType)) : Json :=
  Json.arr (rs.map (fun p =>
    Json.arr [serializeCallRequest p.1, serializeTraceTypes p.2]))

/-- A trace filter: every field optional (mirrors `TraceFilter` in
`types`). -/
structure TraceFilter where
  from_block : Option BlockNumber := none
  to_block : Option BlockNumber := none
  from_address : Option (List Address) := none
  to_address : Option (List Address) := none
  after : Option Nat := none
  count : Option Nat := none

/-- Modelled from the spec: the filter object is serialized as a single
structured parameter with unset fields omitted. -/
def serializeTraceFilter (f : TraceFilter) : Json :=
  Json.obj
    (optField "fromBlock" (f.from_block.map serializeBlockNumber) ++
     optField "toBlock" (f.to_block.map serializeBlockNumber) ++
     optField "fromAddress" (f.from_address.map (fun xs =>
       Json.arr (xs.map serializeAddress))) ++
     optField "toAddress" (f.to_address.map (fun xs =>
       Json.arr (xs.map serializeAddress))) ++
     optField "after" (f.after.map (fun n => Json.str (hexMinimal n))) ++
     optField "count" (f.count.map (fun n => Json.str (hexMinimal n))))

/-- A dispatched request: the remote method name together with the
ordered, pre-serialized parameter list handed to the transport. -/
abbrev Request := String × List Json

/-- The `Traces` namespace object: holds exactly one transport handle
(`struct Traces<T> { transport: T }`). -/
structure Traces (τ : Type) where
  transport : τ

/-- `Namespace::new`: constructs the namespace from a transport handle
(`Traces { transport }`). -/
def Traces.new {τ : Type} (t : τ) : Traces τ :=
  { transport := t }

/-- `Traces::call`: executes the given call; dispatches `trace_call`
with parameters `[req, trace_type, block]`, the absent block selector
replaced by `BlockNumber::Latest`. -/
def Traces.call {τ : Type} (_self : Traces τ) (req : CallRequest)
    (trace_type : List TraceType) (block : Option BlockNumber) : Request :=
  ("trace_call",
   [serializeCallRequest req,
    serializeTraceTypes trace_type,
    serializeBlockNumber (block.getD BlockNumber.Latest)])

/-- `Traces::call_many`: dispatches `trace_callMany` with parameters
`[reqs_with_trace_types, block]`, the absent block identifier replaced
by `BlockNumber::Latest.into()`. -/
def Traces.call_many {τ : Type} (_self : Traces τ)
    (reqs_with_trace_types : List (CallRequest × List TraceType))
    (block : Option BlockId) : Request :=
  ("trace_callMany",
   [serializeReqsWithTraceTypes reqs_with_trace_types,
    serializeBlockId
      (block.getD (BlockId.ofBlockNumber BlockNumber.Latest))])

/-- `Traces::raw_transaction`: dispatches `trace_rawTransaction` with
parameters `[data, trace_type]`. -/
def Traces.raw_transaction {τ : Type} (_self : Traces τ) (data : Bytes)
    (trace_type : List TraceType) : Request :=
  ("trace_rawTransaction",
   [serializeBytes data, serializeTraceTypes trace_type])

/-- `Traces::replay_transaction`: dispatches `trace_replayTransaction`
with parameters `[hash, trace_type]`. -/
def Traces.replay_transaction {τ : Type} (_self : Traces τ) (hash : H256)
    (trace_type : List TraceType) : Request :=
  ("trace_replayTransaction",
   [serializeH256 hash, serializeTraceTypes trace_type])

/-- `Traces::replay_block_transactions`: dispatches
`trace_replayBlockTransactions` with parameters `[block, trace_type]`. -/
def Traces.replay_block_transactions {τ : Type} (_self : Traces τ)
    (block : BlockNumber) (trace_type : List TraceType) : Request :=
  ("trace_replayBlockTransactions",
   [serializeBlockNumber block, serializeTraceTypes trace_type])

/-- `Traces::block`: dispatches `debug_traceBlockByNumber` with
parameters `[block, tracer]`, where `tracer` serializes the one-entry
map built by `map.insert("tracer", "callTracer")`. -/
def Traces.block {τ : Type} (_self : Traces τ)
    (block : BlockNumber) : Request :=
  ("debug_traceBlockByNumber",
   [serializeBlockNumber block,
    Json.obj [("tracer", Json.str "callTracer")]])

/-- `Traces::filter`: dispatches `trace_filter` with the single
parameter `[filter]`. -/
def Traces.filter {τ : Type} (_self : Traces τ)
    (f : TraceFilter) : Request :=
  ("trace_filter", [serializeTraceFilter f])

/-- `Traces::get`: dispatches `trace_get` with parameters
`[hash, index]`, the index list serialized as a list. -/
def Traces.get {τ : Type} (_self : Traces τ) (hash : H256)
    (index : List Index) : Request :=
  ("trace_get",
   [serializeH256 hash, Json.arr (index.map serializeIndex)])

/-- `Traces::transaction`: dispatches `trace_transaction` with the
single parameter `[hash]`. -/
def Traces.transaction {τ : Type} (_self : Traces τ)
    (hash : H256) : Request :=
  ("trace_transaction", [serializeH256 hash])

/-- The error of a resolved call: either a transport-level failure
(carrying the transport's own diagnostic, of abstract type `ε`) or a
decode failure carrying the expected result type's name and the raw
value that failed to decode. Modelled from the spec: the two kinds are
distinct and never conflated (spec section 7). -/
inductive RpcError (ε : Type) where
  | transport : ε → RpcError ε
  | decoder : String → Json → RpcError ε

/-- Modelled from the spec: resolution of the generic call wrapper
(`CallFuture` in `helpers`, not under `src/`). Given the expected
result type's decoder and name, and the transport's resolved raw
outcome, it propagates a transport failure unchanged without decoding,
decodes a completed raw result into the typed value, and otherwise
fails with a decode error carrying the expected type and the raw value
(spec sections 4.2 and 7). -/
def resolveCallFuture {ε α : Type} (decode : Json → Option α)
    (expected : String) (raw : Except ε Json) : Except (RpcError ε) α :=
  match raw with
  | Except.error e => Except.error (RpcError.transport e)
  | Except.ok v =>
    match decode v with
    | some a => Except.ok a
    | none => Except.error (RpcError.decoder expected v)

/-- A sample decoder for a list-shaped result, used to evaluate the
call wrapper at concrete inputs: accepts a JSON array and returns its
length, rejects anything else. -/
def decodeArrayLength : Json → Option Nat
  | Json.arr xs => some xs.length
  | _ => none

/-- C1: for every block selector, `block` dispatches the remote method
`debug_traceBlockByNumber` with exactly two parameters, the second
being the fixed one-pair tracer-config object mapping "tracer" to
"callTracer", identical on every call. -/
theorem c1_block_dispatches_debug_trace {τ : Type} (tr : Traces τ)
    (b : BlockNumber) :
    Traces.block tr b =
      ("debug_traceBlockByNumber",
       [serializeBlockNumber b,
        Json.obj [("tracer", Json.str "callTracer")]]) :=
  rfl

/-- C2: with the block argument omitted, `call_many` fills its block
slot with the block-identifier form of `Latest` while `call` fills its
block slot with the bare token "latest"; both defaults are the
`Latest` (chain tip) selector, but their wire encodings differ. -/
theorem c2_call_many_default_encoding_distinct {τ : Type} (tr : Traces τ)
    (req : CallRequest) (tt : List TraceType)
    (rs : List (CallRequest × List TraceType)) :
    ((Traces.call_many tr rs none).2)[1]? =
      some (serializeBlockId (BlockId.ofBlockNumber BlockNumber.Latest)) ∧
    ((Traces.call tr req tt none).2)[2]? =
      some (serializeBlockNumber BlockNumber.Latest) ∧
    serializeBlockNumber BlockNumber.Latest = Json.str "latest" ∧
    serializeBlockId (BlockId.ofBlockNumber BlockNumber.Latest) ≠
      Json.str "latest" :=
  ⟨rfl, rfl, rfl, fun h => Json.noConfusion h⟩

/-- C3: `call` always dispatches exactly three parameters and
`call_many` exactly two, for every input; omitting the optional block
argument produces exactly the same request as passing the explicit
`Latest` default, so the wire slot is filled rather than omitted. -/
theorem c3_fixed_arity_latest_default {τ : Type} (tr : Traces τ)
    (req : CallRequest) (tt : List TraceType) (b : Option BlockNumber)
    (rs : List (CallRequest × List TraceType)) (bi : Option BlockId) :
    (Traces.call tr req tt b).2.length = 3 ∧
    (Traces.call_many tr rs bi).2.length = 2 ∧
    Traces.call tr req tt none =
      Traces.call tr req tt (some BlockNumber.Latest) ∧
    Traces.call_many tr rs none =
      Traces.call_many tr rs
        (some (BlockId.ofBlockNumber BlockNumber.Latest)) :=
  ⟨rfl, rfl, rfl, rfl⟩

/-- C4: `call` on a request whose only set fields are a destination
address and a value, with trace types `["trace"]` and no block,
dispatches `trace_call` with exactly the parameters
`[obj to/value, ["trace"], "latest"]`; every unset field is omitted
from the structured first parameter. -/
theorem c4_call_minimal_request_encoding {τ : Type} (tr : Traces τ)
    (a : Address) (v : U256) :
    Traces.call tr { to? := some a, value := some v }
        [TraceType.Trace] none =
      ("trace_call",
       [Json.obj [("to", serializeAddress a), ("value", serializeU256 v)],
        Json.arr [Json.str "trace"],
        Json.str "latest"]) :=
  rfl

/-- C5: `raw_transaction` on the bytes 0x01020304 with trace types
`["trace"]` dispatches `trace_rawTransaction` with exactly the two
parameters `["0x01020304", ["trace"]]`, the bytes hex-encoded with no
additional wrapping. -/
theorem c5_raw_transaction_encoding :
    Traces.raw_transaction (Traces.new ()) [1, 2, 3, 4]
        [TraceType.Trace] =
      ("trace_rawTransaction",
       [Json.str "0x01020304", Json.arr [Json.str "trace"]]) :=
  rfl

/-- C6: `get` serializes every index list as a list parameter, and on
the single index 0 the encoded index argument is the list `["0x0"]`,
never a bare scalar. -/
theorem c6_get_index_list {τ : Type} (tr : Traces τ) (h : H256)
    (idxs : List Index) :
    Traces.get tr h idxs =
      ("trace_get",
       [serializeH256 h, Json.arr (idxs.map serializeIndex)]) ∧
    Traces.get tr h [0] =
      ("trace_get", [serializeH256 h, Json.arr [Json.str "0x0"]]) :=
  ⟨rfl, rfl⟩

/-- C7: for every operation, the dispatched method name and parameter
list are a pure function of the domain arguments alone: two namespace
instances with arbitrary (even differently-typed) transports produce
identical encoded requests on the same arguments, so no hidden state
influences the encoding. -/
theorem c7_encoding_deterministic {τ τ' : Type}
    (t1 : Traces τ) (t2 : Traces τ') (req : CallRequest)
    (tt : List TraceType) (b : Option BlockNumber)
    (rs : List (CallRequest × List TraceType)) (bi : Option BlockId)
    (data : Bytes) (h : H256) (bn : BlockNumber) (f : TraceFilter)
    (idxs : List Index) :
    Traces.call t1 req tt b = Traces.call t2 req tt b ∧
    Traces.call_many t1 rs bi = Traces.call_many t2 rs bi ∧
    Traces.raw_transaction t1 data tt = Traces.raw_transaction t2 data tt ∧
    Traces.replay_transaction t1 h tt = Traces.replay_transaction t2 h tt ∧
    Traces.replay_block_transactions t1 bn tt =
      Traces.replay_block_transactions t2 bn tt ∧
    Traces.block t1 bn = Traces.block t2 bn ∧
    Traces.filter t1 f = Traces.filter t2 f ∧
    Traces.get t1 h idxs = Traces.get t2 h idxs ∧
    Traces.transaction t1 h = Traces.transaction t2 h :=
  ⟨rfl, rfl, rfl, rfl, rfl, rfl, rfl, rfl, rfl⟩

/-- C8: the resolved call distinguishes three mutually exclusive
outcomes: a transport failure is propagated unchanged for every
decoder, without any decode attempt; a completed call whose raw value
the decoder rejects fails with a decode error carrying the expected
type and the raw value; a decodable raw value is delivered as the
typed result; and the transport-failure and decode-failure error forms
are never equal. -/
theorem c8_call_wrapper_outcomes {ε α : Type} (decode : Json → Option α)
    (expected : String) (e : ε) (raw : Json) :
    (∀ (d2 : Json → Option α) (exp2 : String),
        resolveCallFuture d2 exp2 (Except.error e : Except ε Json) =
          Except.error (RpcError.transport e)) ∧
    (decode raw = none →
        resolveCallFuture decode expected
            (Except.ok raw : Except ε Json) =
          Except.error (RpcError.decoder expected raw)) ∧
    (∀ a, decode raw = some a →
        resolveCallFuture decode expected
            (Except.ok raw : Except ε Json) =
          Except.ok a) ∧
    (∀ (exp2 : String) (raw2 : Json),
        RpcError.transport e ≠ RpcError.decoder (ε := ε) exp2 raw2) := by
  refine ⟨fun d2 exp2 => rfl, fun hn => ?_, fun a ha => ?_,
    fun exp2 raw2 hc => RpcError.noConfusion hc⟩
  · simp only [resolveCallFuture, hn]
  · simp only [resolveCallFuture, ha]

/-- Witness for C8: the call wrapper evaluated at concrete inputs — a
transport error string, a non-array raw value rejected by the
array-length decoder, and an empty-array raw value it accepts. -/
theorem c8_call_wrapper_outcomes_witness :
    resolveCallFuture decodeArrayLength "Vec<Trace>"
        (Except.error "connection refused" : Except String Json) =
      Except.error (RpcError.transport "connection refused") ∧
    resolveCallFuture decodeArrayLength "Vec<Trace>"
        (Except.ok (Json.str "0x") : Except String Json) =
      Except.error (RpcError.decoder "Vec<Trace>" (Json.str "0x")) ∧
    resolveCallFuture decodeArrayLength "Vec<Trace>"
        (Except.ok (Json.arr []) : Except String Json) = Except.ok 0 :=
  ⟨(c8_call_wrapper_outcomes decodeArrayLength "Vec<Trace>"
      "connection refused" (Json.str "0x")).1 decodeArrayLength
      "Vec<Trace>",
   (c8_call_wrapper_outcomes decodeArrayLength "Vec<Trace>"
      "connection refused" (Json.str "0x")).2.1 rfl,
   (c8_call_wrapper_outcomes decodeArrayLength "Vec<Trace>"
      "connection refused" (Json.arr [])).2.2.1 0 rfl⟩

/-- C9: constructing the namespace from a transport and reading the
transport back is the identity: `Traces.new t` stores exactly `t` and
`transport` returns it unchanged. Every operation takes the namespace
immutably (Rust `&self`) and returns only a request, so no operation
can replace the stored handle. -/
theorem c9_new_transport_roundtrip {τ : Type} (t : τ) :
    (Traces.new t).transport = t :=
  rfl

/-- C10: no operation validates its arguments before dispatch: with an
empty trace-type list (`call`, `raw_transaction`, `replay_transaction`,
`replay_block_transactions`) or an empty index list (`get`), encoding
still succeeds and the request carries the empty list as an explicit
empty-list parameter. -/
theorem c10_empty_lists_still_dispatch {τ : Type} (tr : Traces τ)
    (req : CallRequest) (b : Option BlockNumber) (data : Bytes)
    (h : H256) (bn : BlockNumber) :
    Traces.call tr req [] b =
      ("trace_call",
       [serializeCallRequest req, Json.arr [],
        serializeBlockNumber (b.getD BlockNumber.Latest)]) ∧
    Traces.raw_transaction tr data [] =
      ("trace_rawTransaction", [serializeBytes data, Json.arr []]) ∧
    Traces.replay_transaction tr h [] =
      ("trace_replayTransaction", [serializeH256 h, Json.arr []]) ∧
    Traces.replay_block_transactions tr bn [] =
      ("trace_replayBlockTransactions",
       [serializeBlockNumber bn, Json.arr []]) ∧
    Traces.get tr h [] =
      ("trace_get", [serializeH256 h, Json.arr []]) :=
  ⟨rfl, rfl, rfl, rfl, rfl⟩
